import Mathlib

/-!
# Verification of the streams tangle transport client

Shallow embedding of `src/iota-streams-app/src/transport/tangle/client.rs`:
the message codec (`make_bundle` / `msg_to_tangle` / `msg_from_tangle_message`),
the receive pipeline (`get_messages` / `async_recv_messages`), the send
pipeline (`send_messages`), the `Transport` implementations for `Client` and
for the shared `Rc<RefCell<Client>>` handle, and the `SendTrytesOptions`
defaults.

Bytes are modelled as `Fin 256`; ledger message identifiers are opaque
naturals.  Fallible Rust code returning `Result` is modelled by `RRes`,
which distinguishes an `Err` return value from a panic (`unwrap` on an
error).  The external `iota` client crate is modelled as a record of
oracles (`IotaClient`); the external `Indexation` payload constructor is
modelled from the spec (it is not part of this repository's sources).
-/

set_option autoImplicit false

namespace Streams

abbrev Byte := Fin 256

/-- The hexadecimal digit characters used by the Rust `hex` crate's encoder
(lowercase). -/
def hexDigit (d : Fin 16) : Char :=
  if d.val < 10 then Char.ofNat (48 + d.val) else Char.ofNat (87 + d.val)

/-- Decoding of one hexadecimal digit, as the Rust `hex` crate's decoder
accepts it: `0`-`9`, `a`-`f` and `A`-`F`. -/
def hexDecodeDigit (c : Char) : Option (Fin 16) :=
  if h : 48 ≤ c.toNat ∧ c.toNat ≤ 57 then
    some ⟨c.toNat - 48, by omega⟩
  else if h : 97 ≤ c.toNat ∧ c.toNat ≤ 102 then
    some ⟨c.toNat - 87, by omega⟩
  else if h : 65 ≤ c.toNat ∧ c.toNat ≤ 70 then
    some ⟨c.toNat - 55, by omega⟩
  else
    none

/-- `hex::encode`: every byte becomes two hexadecimal characters, high
nibble first. -/
def hexEncode : List Byte → List Char
  | [] => []
  | b :: rest =>
      hexDigit ⟨b.val / 16, by omega⟩ :: hexDigit ⟨b.val % 16, by omega⟩ :: hexEncode rest

/-- Combine a high and a low nibble into one byte. -/
def mkByte (hi lo : Fin 16) : Byte := ⟨16 * hi.val + lo.val, by omega⟩

/-- `hex::decode`: consumes the characters two at a time; fails on an odd
length or on a character that is not a hexadecimal digit. -/
def hexDecode : List Char → Option (List Byte)
  | [] => some []
  | [_] => none
  | c1 :: c2 :: rest =>
      match hexDecodeDigit c1, hexDecodeDigit c2, hexDecode rest with
      | some hi, some lo, some bs => some (mkByte hi lo :: bs)
      | _, _, _ => none

/-- `TangleAddress`: an application-instance identifier (`appinst`) together
with a message identifier (`msgid`), both byte strings. -/
structure TangleAddress where
  appinst : List Byte
  msgid : List Byte
deriving DecidableEq, Repr

/-- `BinaryMessage`: a link together with an opaque byte body
(`msg.body.bytes` in the source). -/
structure BinaryMessage where
  link : TangleAddress
  body : List Byte
deriving DecidableEq, Repr

/-- `TangleMessage`: a binary message together with a `u64` timestamp. -/
structure TangleMessage where
  binary : BinaryMessage
  timestamp : Nat
deriving DecidableEq, Repr

/-- An opaque node-assigned ledger message identifier (`MessageId`). -/
abbrev MessageId := Nat

/-- `Indexation` payload of the external ledger crate: an index tag and a
data field, both strings. -/
structure Indexation where
  index : List Char
  data : List Char
deriving DecidableEq, Repr

/-- Modelled from the spec: the external crate's `Indexation::new(index, body)`
constructor (the `iota` crate is not part of this repository's sources).
Per the payload wire format, it stores `data = hex(body_bytes)`; the
reference behaviour imposes no size bound, so the constructor is total. -/
def Indexation.new (index : List Char) (body : List Byte) : Indexation :=
  { index := index, data := hexEncode body }

/-- A ledger message payload: either an indexation payload or some other
payload kind. -/
inductive Payload where
  | indexation (i : Indexation)
  | other
deriving DecidableEq, Repr

/-- A ledger-native `Message`: two parent references and an optional
payload. -/
structure Message where
  parent1 : MessageId
  parent2 : MessageId
  payload : Option Payload
deriving DecidableEq, Repr

/-- The error kinds of the transport layer (`Errors` in `iota_streams_core`,
plus the ad-hoc `anyhow!`/`ensure!` errors of this file, named after the
spec's taxonomy where a spec name maps onto them). -/
inductive Err where
  /-- `ClientOperationFailure`: node-level failure (`handle_client_result`). -/
  | clientOperationFailure
  /-- `HashNotFound` (raised by the unused `get_bundles` helper). -/
  | hashNotFound
  /-- `TransactionContentsNotFound` (raised by the unused `get_bundles` helper). -/
  | transactionContentsNotFound
  /-- The `ensure!` at client.rs:97: no message ids match the index. -/
  | messageIdsNotFound
  /-- The `ensure!` at client.rs:110: ids matched but no messages fetched. -/
  | messagesNotFound
  /-- The `anyhow!` at client.rs:88: payload is not an indexation payload
  (the spec's `UnexpectedPayloadType`). -/
  | unexpectedPayloadType
  /-- A `hex::decode` failure propagated by `?` at client.rs:81. -/
  | hexDecodeFailure
  /-- `MessageNotUnique`: more than one match for `recv_message`. -/
  | messageNotUnique
  /-- `MessageLinkNotFound`: no match for `recv_message`. -/
  | messageLinkNotFound
  /-- `TransportNotAvailable`: shared-handle contention in cooperative mode. -/
  | transportNotAvailable
  /-- A panic from `Option::unwrap` on `None` (`message.payload().as_ref().unwrap()`). -/
  | noneUnwrap
  /-- A panic from `unwrap` directly on a raw client result (`get_tips`),
  carrying the unmapped client error. -/
  | rawClientError
deriving DecidableEq, Repr

/-- Outcome of running a piece of Rust code: a normal `Ok` value, a normal
`Err` return, or a panic (`unwrap` on an error value). -/
inductive RRes (α : Type) where
  | ok (a : α)
  | err (e : Err)
  | panicked (e : Err)
deriving DecidableEq, Repr

/-- Sequencing with `?`: `Err` and panics both short-circuit, but stay
distinct. -/
def RRes.bind {α β : Type} : RRes α → (α → RRes β) → RRes β
  | .ok a, f => f a
  | .err e, _ => .err e
  | .panicked e, _ => .panicked e

/-- `Result::unwrap()`: a normal error becomes a panic carrying it. -/
def RRes.unwrap {α : Type} : RRes α → RRes α
  | .ok a => .ok a
  | .err e => .panicked e
  | .panicked e => .panicked e

/-- An error of the external `iota_client` crate, opaque to this layer. -/
abbrev ClientErr := Nat

/-- The external `iota_client::Client`, modelled as a record of oracles for
the node requests this file issues: index lookup (`get_message().index(..)`),
message fetch (`get_message().data(id)`), submission (`post_message`) and tip
resolution (`get_tips`). -/
structure IotaClient where
  getMessageIndex : List Char → Except ClientErr (List MessageId)
  getMessageData : MessageId → Except ClientErr Message
  postMessage : Message → Except ClientErr MessageId
  getTips : Except ClientErr (MessageId × MessageId)

/-- `handle_client_result` (the canonical definition at client.rs:196-198):
maps any client error to `ClientOperationFailure`. -/
def handle_client_result {α : Type} : Except ClientErr α → RRes α
  | .ok a => .ok a
  | .error _ => .err .clientOperationFailure

/-- The link codec: `hex::encode([address, tag].concat())`, the expression
used identically on the send path (client.rs:126, inside `make_bundle`) and
on the receive path (client.rs:94, inside `get_messages`). -/
def indexKey (address tag : List Byte) : List Char :=
  hexEncode (address ++ tag)

/-- `msg_from_tangle_message` (client.rs:79-90): requires an indexation
payload, hex-decodes its data into the message body, and fixes the
timestamp to 0 (`// TODO get timestamp`).  `message.payload()` is an
`Option` unwrapped with `unwrap()`, so a missing payload panics. -/
def msg_from_tangle_message (message : Message) (link : TangleAddress) : RRes TangleMessage :=
  match message.payload with
  | none => .panicked .noneUnwrap
  | some (.indexation i) =>
      match hexDecode i.data with
      | some bytes => .ok { binary := { link := link, body := bytes }, timestamp := 0 }
      | none => .err .hexDecodeFailure
  | some .other => .err .unexpectedPayloadType

/-- The `join_all` fan-out inside `get_messages` (client.rs:99-109): each id
is fetched and the client result is `unwrap`ped (a client failure panics).
`join_all` is modelled by sequential collection; it yields one output per
input id. -/
def fetchAll (client : IotaClient) : List MessageId → RRes (List Message)
  | [] => .ok []
  | id :: rest =>
      ((handle_client_result (client.getMessageData id)).unwrap).bind fun m =>
        (fetchAll client rest).bind fun ms => .ok (m :: ms)

/-- `get_messages` (client.rs:92-112): index lookup (`unwrap`ped, so a
client failure panics), `ensure!` that some ids were found, fan-out fetch,
`ensure!` that some messages were fetched. -/
def get_messages (client : IotaClient) (tx_address tx_tag : List Byte) : RRes (List Message) :=
  ((handle_client_result (client.getMessageIndex (indexKey tx_address tx_tag))).unwrap).bind
    fun msg_ids =>
      if msg_ids.isEmpty then .err .messageIdsNotFound
      else
        (fetchAll client msg_ids).bind fun msgs =>
          if msgs.isEmpty then .err .messagesNotFound
          else .ok msgs

/-- `make_bundle` (client.rs:114-137): builds a single ledger message whose
payload is `Indexation::new(hex::encode([address, tag].concat()), body)`,
with the given trunk and branch as parents.  The timestamp is ignored. -/
def make_bundle (address tag body : List Byte) (_timestamp : Nat)
    (trunk branch : MessageId) : RRes (List Message) :=
  .ok [{ parent1 := trunk, parent2 := branch,
         payload := some (.indexation (Indexation.new (indexKey address tag) body)) }]

/-- `msg_to_tangle` (client.rs:139-153). -/
def msg_to_tangle (msg : BinaryMessage) (timestamp : Nat)
    (trunk branch : MessageId) : RRes (List Message) :=
  make_bundle msg.link.appinst msg.link.msgid msg.body timestamp trunk branch

/-- `SendTrytesOptions` (defined twice in the source with identical
fields). -/
structure SendTrytesOptions where
  depth : Nat
  min_weight_magnitude : Nat
  local_pow : Bool
  threads : Nat
deriving DecidableEq, Repr

/-- `get_num_cpus` (client.rs:175-183): returns the available parallelism
when the `num_cpus` feature is compiled in, and falls back to 1 otherwise.
The feature flag and the value of `num_cpus::get()` are parameters. -/
def get_num_cpus (numCpusFeature : Bool) (numCpus : Nat) : Nat :=
  if numCpusFeature then numCpus else 1

/-- The first `Default` impl for `SendTrytesOptions` (client.rs:62-71):
`threads = num_cpus::get()`, the available parallelism. -/
def SendTrytesOptions.default1 (numCpus : Nat) : SendTrytesOptions :=
  { depth := 3, min_weight_magnitude := 14, local_pow := true, threads := numCpus }

/-- The second `Default` impl for `SendTrytesOptions` (client.rs:185-194):
`threads = get_num_cpus()`. -/
def SendTrytesOptions.default2 (numCpusFeature : Bool) (numCpus : Nat) : SendTrytesOptions :=
  { depth := 3, min_weight_magnitude := 14, local_pow := true,
    threads := get_num_cpus numCpusFeature numCpus }

/-- The `join_all` fan-out inside `send_messages` (client.rs:156-162): each
message is posted and the client result is mapped by `handle_client_result`
and then `unwrap`ped, so any submission failure panics with
`ClientOperationFailure`. -/
def postAll (client : IotaClient) : List Message → RRes (List MessageId)
  | [] => .ok []
  | m :: rest =>
      ((handle_client_result (client.postMessage m)).unwrap).bind fun id =>
        (postAll client rest).bind fun ids => .ok (id :: ids)

/-- `send_messages` (client.rs:155-165): submits the whole batch; the
options are unused (`_opt`). -/
def send_messages (client : IotaClient) (_opt : SendTrytesOptions)
    (msgs : List Message) : RRes (List MessageId) :=
  postAll client msgs

/-- `unwrap` directly on a raw client result (`client.get_tips().await.unwrap()`,
client.rs:229): a client failure panics with the raw error. -/
def rawUnwrap {α : Type} : Except ClientErr α → RRes α
  | .ok a => .ok a
  | .error _ => .panicked .rawClientError

/-- `async_send_message_with_options` (client.rs:227-235): resolve tips,
encode, submit, discard the assigned ids. -/
def async_send_message_with_options (client : IotaClient) (msg : TangleMessage)
    (opt : SendTrytesOptions) : RRes Unit :=
  (rawUnwrap client.getTips).bind fun tips =>
    (msg_to_tangle msg.binary msg.timestamp tips.1 tips.2).bind fun messages =>
      (send_messages client opt messages).bind fun _ => .ok ()

/-- The decode fan-out inside `async_recv_messages` (client.rs:241-243):
each fetched message is decoded and the result is `unwrap`ped, so a decode
failure panics. -/
def decodeAll (link : TangleAddress) : List Message → RRes (List TangleMessage)
  | [] => .ok []
  | m :: rest =>
      ((msg_from_tangle_message m link).unwrap).bind fun tm =>
        (decodeAll link rest).bind fun tms => .ok (tm :: tms)

/-- The `match` on the result of `get_messages` inside `async_recv_messages`
(client.rs:240-245): a successful lookup is decoded, any `Err` is replaced
by `Ok(Vec::new())` (`// Just ignore the error?`), and a panic propagates. -/
def async_recv_match (link : TangleAddress) : RRes (List Message) → RRes (List TangleMessage)
  | .ok txs => decodeAll link txs
  | .err _ => .ok []
  | .panicked e => .panicked e

/-- `async_recv_messages` (client.rs:237-246). -/
def async_recv_messages (client : IotaClient) (link : TangleAddress) :
    RRes (List TangleMessage) :=
  async_recv_match link (get_messages client link.appinst link.msgid)

/-- `get_bundles` (client.rs:200-213): a leftover helper of the legacy API
that nothing in this file calls.  Unlike `get_messages`, it propagates its
failures with `?`: `HashNotFound` when no hashes match,
`TransactionContentsNotFound` when hashes matched but no trytes were
fetched.  The two legacy node requests are passed as oracles and legacy
transactions are opaque. -/
def get_bundles (findTransactions : Except ClientErr (List Nat))
    (getTrytes : List Nat → Except ClientErr (List Nat)) : RRes (List Nat) :=
  (handle_client_result findTransactions).bind fun findBundles =>
    if findBundles.isEmpty then .err .hashNotFound
    else
      (handle_client_result (getTrytes findBundles)).bind fun getResp =>
        if getResp.isEmpty then .err .transactionContentsNotFound
        else .ok getResp

/-- The `Client` wrapper (client.rs:258-296): send options plus the
underlying node client. -/
structure Client where
  send_opt : SendTrytesOptions
  client : IotaClient

/-- `Transport::send_message` for `Client` (client.rs:332-334). -/
def Client.send_message (c : Client) (msg : TangleMessage) : RRes Unit :=
  async_send_message_with_options c.client msg c.send_opt

/-- `Transport::recv_messages` for `Client` (client.rs:337-339). -/
def Client.recv_messages (c : Client) (link : TangleAddress) : RRes (List TangleMessage) :=
  async_recv_messages c.client link

/-- `Transport::recv_message` for `Client` (client.rs:341-349): pops the
last received message, then `try_or!(msgs.is_empty(), MessageNotUnique)?`
rejects a non-singleton, and an empty result is `MessageLinkNotFound`. -/
def Client.recv_message (c : Client) (link : TangleAddress) : RRes TangleMessage :=
  (c.recv_messages link).bind fun msgs =>
    match msgs.getLast? with
    | some msg =>
        if msgs.dropLast.isEmpty then .ok msg else .err .messageNotUnique
    | none => .err .messageLinkNotFound

/-- The shared cooperative handle `Rc<RefCell<Client>>` (client.rs:352-389).
`borrowed` records whether another operation currently holds the
`RefCell` (`try_borrow_mut` fails exactly then). -/
structure SharedClient where
  cell : Client
  borrowed : Bool

/-- `Transport::send_message` for `Rc<RefCell<Client>>` (client.rs:360-365). -/
def SharedClient.send_message (s : SharedClient) (msg : TangleMessage) : RRes Unit :=
  if s.borrowed then .err .transportNotAvailable
  else async_send_message_with_options s.cell.client msg s.cell.send_opt

/-- `Transport::recv_messages` for `Rc<RefCell<Client>>` (client.rs:368-373). -/
def SharedClient.recv_messages (s : SharedClient) (link : TangleAddress) :
    RRes (List TangleMessage) :=
  if s.borrowed then .err .transportNotAvailable
  else async_recv_messages s.cell.client link

/-- `Transport::recv_message` for `Rc<RefCell<Client>>` (client.rs:375-388).
At client.rs:380 the statement `try_or!(msgs.is_empty(), MessageNotUnique(..));`
lacks the `?` operator: the `Result` it builds is discarded, so the
uniqueness check has no effect and the popped last message is returned. -/
def SharedClient.recv_message (s : SharedClient) (link : TangleAddress) : RRes TangleMessage :=
  if s.borrowed then .err .transportNotAvailable
  else
    (async_recv_messages s.cell.client link).bind fun msgs =>
      match msgs.getLast? with
      | some msg => .ok msg
      | none => .err .messageLinkNotFound

/-! ## Concrete test fixtures -/

/-- A concrete link used by the witnesses below. -/
def testLink : TangleAddress := { appinst := [1], msgid := [2] }

/-- A stored ledger message carrying the single-byte body `[b]` for
`testLink`, exactly as `make_bundle` would have produced it. -/
def testMsg (b : Byte) : Message :=
  { parent1 := 0, parent2 := 0,
    payload := some (.indexation (Indexation.new (indexKey testLink.appinst testLink.msgid) [b])) }

/-- A ledger message whose payload is present but not an indexation
payload. -/
def otherMsg : Message := { parent1 := 0, parent2 := 0, payload := some .other }

/-- A node on which every index lookup matches nothing. -/
def emptyClient : IotaClient :=
  { getMessageIndex := fun _ => .ok []
    getMessageData := fun _ => .error 0
    postMessage := fun _ => .ok 0
    getTips := .ok (0, 0) }

/-- A node on which every index lookup matches two stored messages, with
bodies `[5]` and `[6]`. -/
def twoMsgClient : IotaClient :=
  { getMessageIndex := fun _ => .ok [10, 11]
    getMessageData := fun id => if id = 10 then .ok (testMsg 5) else .ok (testMsg 6)
    postMessage := fun _ => .ok 0
    getTips := .ok (0, 0) }

/-- A node that rejects every submission. -/
def failPostClient : IotaClient :=
  { getMessageIndex := fun _ => .ok []
    getMessageData := fun _ => .error 0
    postMessage := fun _ => .error 3
    getTips := .ok (0, 0) }

/-- A currently-unborrowed shared handle over `twoMsgClient`. -/
def twoMsgShared : SharedClient :=
  { cell := { send_opt := SendTrytesOptions.default1 1, client := twoMsgClient },
    borrowed := false }

/-- The same shared handle while another operation holds the `RefCell`. -/
def borrowedShared : SharedClient :=
  { cell := twoMsgShared.cell, borrowed := true }

/-- An unborrowed shared handle over `emptyClient`. -/
def emptyShared : SharedClient :=
  { cell := { send_opt := SendTrytesOptions.default1 1, client := emptyClient },
    borrowed := false }

/-- A legacy lookup result with two transaction hashes, for `get_bundles`. -/
def legacyFindTwo : Except ClientErr (List Nat) := .ok [7, 8]

/-- A legacy trytes fetch that returns no contents, for `get_bundles`. -/
def legacyGetEmpty : List Nat → Except ClientErr (List Nat) := fun _ => .ok []

/-! ## Helper lemmas -/

theorem hexDecodeDigit_hexDigit : ∀ d : Fin 16, hexDecodeDigit (hexDigit d) = some d := by
  decide

theorem mkByte_nibbles (b : Byte) :
    mkByte ⟨b.val / 16, by omega⟩ ⟨b.val % 16, by omega⟩ = b := by
  apply Fin.ext
  simp [mkByte]
  omega

/-- Hex round-trip: decoding an encoding recovers the bytes. -/
theorem hexDecode_hexEncode (bs : List Byte) : hexDecode (hexEncode bs) = some bs := by
  induction bs with
  | nil => rfl
  | cons b rest ih =>
      simp only [hexEncode, hexDecode, hexDecodeDigit_hexDigit, ih, mkByte_nibbles]

/-- Hex encoding is injective. -/
theorem hexEncode_injective {xs ys : List Byte} (h : hexEncode xs = hexEncode ys) :
    xs = ys := by
  have hx := hexDecode_hexEncode xs
  have hy := hexDecode_hexEncode ys
  rw [h, hy] at hx
  exact (Option.some_injective _ hx).symm

/-- `unwrap` never produces a normal `Err`: it turns errors into panics. -/
theorem RRes.unwrap_ne_err {α : Type} (r : RRes α) (e : Err) : r.unwrap ≠ .err e := by
  cases r <;> simp [RRes.unwrap]

/-- The fetch fan-out never produces a normal `Err`: the only failure mode
of its `unwrap`s is a panic. -/
theorem fetchAll_ne_err (client : IotaClient) :
    ∀ (ids : List MessageId) (e : Err), fetchAll client ids ≠ .err e := by
  intro ids
  induction ids with
  | nil => intro e h; cases h
  | cons id rest ih =>
      intro e h
      simp only [fetchAll] at h
      rcases hu : (handle_client_result (client.getMessageData id)).unwrap with m | e2 | e2
      · rw [hu] at h
        simp only [RRes.bind] at h
        rcases hrest : fetchAll client rest with ms | e3 | e3 <;> rw [hrest] at h <;>
          simp only [RRes.bind] at h
        · cases h
        · exact ih e3 hrest
        · cases h
      · exact RRes.unwrap_ne_err _ e2 hu
      · rw [hu] at h
        simp only [RRes.bind] at h
        cases h

/-- The fetch fan-out yields exactly one message per input id when it
succeeds. -/
theorem fetchAll_ok_length (client : IotaClient) :
    ∀ (ids : List MessageId) (msgs : List Message),
      fetchAll client ids = .ok msgs → msgs.length = ids.length := by
  intro ids
  induction ids with
  | nil =>
      intro msgs h
      cases h
      rfl
  | cons id rest ih =>
      intro msgs h
      simp only [fetchAll] at h
      rcases hu : (handle_client_result (client.getMessageData id)).unwrap with m | e2 | e2 <;>
        rw [hu] at h <;> simp only [RRes.bind] at h
      · rcases hrest : fetchAll client rest with ms | e3 | e3 <;> rw [hrest] at h <;>
          simp only [RRes.bind] at h
        · cases h
          simp [ih ms hrest]
        · cases h
        · cases h
      · cases h
      · cases h

/-- The submit fan-out panics with `ClientOperationFailure` as soon as any
submission in the batch fails. -/
theorem postAll_panics (client : IotaClient) :
    ∀ msgs : List Message, (∃ m ∈ msgs, ∃ ce, client.postMessage m = .error ce) →
      postAll client msgs = .panicked .clientOperationFailure := by
  intro msgs
  induction msgs with
  | nil =>
      rintro ⟨m, hm, _⟩
      cases hm
  | cons x rest ih =>
      rintro ⟨m, hm, ce, hce⟩
      simp only [postAll]
      rcases hx : client.postMessage x with ce2 | id
      · rfl
      · simp only [handle_client_result, RRes.unwrap, RRes.bind]
        rcases List.mem_cons.mp hm with rfl | hmem
        · rw [hce] at hx
          cases hx
        · rw [ih ⟨m, hmem, ce, hce⟩]

/-! ## Claim theorems -/

/-- C1: for every body byte sequence `b` and every link `l`, encoding `b`
under `l` (`msg_to_tangle` / `make_bundle`) produces a single transport
message, and decoding it (`msg_from_tangle_message`) yields a binary
message whose body equals `b` (with timestamp 0), given the payload wire
format `data = hex(body_bytes)`. -/
theorem msg_codec_roundtrip (b : List Byte) (l : TangleAddress) (ts : Nat)
    (trunk branch : MessageId) :
    ∃ m : Message,
      msg_to_tangle { link := l, body := b } ts trunk branch = .ok [m] ∧
      msg_from_tangle_message m l =
        .ok { binary := { link := l, body := b }, timestamp := 0 } := by
  refine ⟨_, rfl, ?_⟩
  simp [msg_from_tangle_message, Indexation.new, make_bundle, hexDecode_hexEncode]

/-- C2 (code bug): on a link with two stored matching messages, the shared
`Rc<RefCell<Client>>` variant of `recv_message` returns the last message
instead of failing, because the `try_or!` result at client.rs:380 is
discarded (missing `?`); the owned `Client` variant fails with
`MessageNotUnique` as the claim states, and on zero matches both variants
fail with `MessageLinkNotFound`. -/
theorem shared_recv_message_uniqueness_bug :
    SharedClient.recv_message twoMsgShared testLink =
      .ok { binary := { link := testLink, body := [6] }, timestamp := 0 } ∧
    Client.recv_message twoMsgShared.cell testLink = .err .messageNotUnique ∧
    SharedClient.recv_message emptyShared testLink = .err .messageLinkNotFound ∧
    Client.recv_message emptyShared.cell testLink = .err .messageLinkNotFound := by
  refine ⟨?_, ?_, ?_, ?_⟩ <;> rfl

/-- C3: when the index lookup finds zero matching message ids, the internal
failure of `get_messages` is swallowed by `async_recv_messages`, which
returns an empty sequence rather than an error. -/
theorem recv_messages_zero_matches_empty (client : IotaClient) (link : TangleAddress)
    (h : client.getMessageIndex (indexKey link.appinst link.msgid) = .ok []) :
    async_recv_messages client link = .ok [] := by
  simp [async_recv_messages, get_messages, h, handle_client_result, RRes.unwrap,
    RRes.bind, async_recv_match]

/-- C3 witness: a concrete client with no matches. -/
theorem recv_messages_zero_matches_empty_witness :
    (emptyClient.getMessageIndex (indexKey testLink.appinst testLink.msgid) = .ok []) ∧
    async_recv_messages emptyClient testLink = .ok [] :=
  ⟨rfl, recv_messages_zero_matches_empty emptyClient testLink rfl⟩

/-- C4 counterexample: the ids-found-but-no-contents failure is NOT
propagated by the public receive surface: the `match` in
`async_recv_messages` (client.rs:244) replaces it — like every other `Err`
from `get_messages` — by an empty `Ok` result. -/
theorem recv_messages_propagation_counterexample :
    async_recv_match testLink (.err .messagesNotFound) = .ok [] ∧
    async_recv_match testLink (.err .transactionContentsNotFound) = .ok [] := by
  exact ⟨rfl, rfl⟩

/-- C4 amended: `async_recv_messages` swallows every `Err` outcome of
`get_messages` to an empty result, not only the no-ids case; the
ids-found-but-no-fetched-messages failure is unreachable in `get_messages`
(a successful fan-out yields one message per id, and a client failure
panics instead of returning `Err`); the propagation of
`TransactionContentsNotFound` described by the spec exists only in the
unused legacy helper `get_bundles`. -/
theorem recv_messages_swallows_all_errors :
    (∀ (l : TangleAddress) (e : Err), async_recv_match l (.err e) = .ok []) ∧
    (∀ (client : IotaClient) (a t : List Byte),
      get_messages client a t ≠ .err .messagesNotFound) ∧
    (∀ (find : Except ClientErr (List Nat))
       (getT : List Nat → Except ClientErr (List Nat)) (hashes : List Nat),
      find = .ok hashes → hashes ≠ [] → getT hashes = .ok [] →
      get_bundles find getT = .err .transactionContentsNotFound) := by
  refine ⟨fun l e => rfl, fun client a t => ?_, ?_⟩
  · simp only [get_messages]
    rcases hu : (handle_client_result (client.getMessageIndex (indexKey a t))).unwrap
      with ids | e | e
    · simp only [RRes.bind]
      by_cases hids : ids.isEmpty = true
      · rw [if_pos hids]
        decide
      · rw [if_neg hids]
        rcases hf : fetchAll client ids with msgs | e2 | e2
        · simp only [RRes.bind]
          have hlen := fetchAll_ok_length client ids msgs hf
          rcases msgs with _ | ⟨m, ms⟩
          · rcases ids with _ | ⟨i, is⟩
            · exact absurd rfl hids
            · simp at hlen
          · simp
        · exact absurd hf (fetchAll_ne_err client ids e2)
        · simp [RRes.bind]
    · exact absurd hu (RRes.unwrap_ne_err _ e)
    · simp [RRes.bind]
  · rintro find getT hashes rfl hne hget
    simp only [get_bundles, handle_client_result, RRes.bind]
    rw [hget]
    simp [List.isEmpty_iff, hne, handle_client_result, RRes.bind]

/-- C4 amended witness: concrete instances discharging each hypothesis. -/
theorem recv_messages_swallows_all_errors_witness :
    async_recv_match testLink (.err .hashNotFound) = .ok [] ∧
    get_messages emptyClient [] [] ≠ .err .messagesNotFound ∧
    ((legacyFindTwo = .ok [7, 8]) ∧ ([7, 8] : List Nat) ≠ [] ∧
      legacyGetEmpty [7, 8] = .ok []) ∧
    get_bundles legacyFindTwo legacyGetEmpty = .err .transactionContentsNotFound :=
  ⟨recv_messages_swallows_all_errors.1 testLink .hashNotFound,
   recv_messages_swallows_all_errors.2.1 emptyClient [] [],
   ⟨rfl, by decide, rfl⟩,
   recv_messages_swallows_all_errors.2.2 legacyFindTwo legacyGetEmpty [7, 8] rfl
     (by decide) rfl⟩

/-- C5: when any individual node submission in a batch fails, the whole
send fails fast: the failure is mapped to `ClientOperationFailure` by
`handle_client_result` and surfaces (as a panic of the `unwrap` at
client.rs:159) with no partial result returned. -/
theorem send_messages_fail_fast (client : IotaClient) (opt : SendTrytesOptions)
    (msgs : List Message)
    (h : ∃ m ∈ msgs, ∃ ce, client.postMessage m = .error ce) :
    send_messages client opt msgs = .panicked .clientOperationFailure := by
  exact postAll_panics client msgs h

/-- C5 witness: a concrete batch whose single submission fails. -/
theorem send_messages_fail_fast_witness :
    (∃ m ∈ [testMsg 5], ∃ ce, failPostClient.postMessage m = .error ce) ∧
    send_messages failPostClient (SendTrytesOptions.default1 1) [testMsg 5] =
      .panicked .clientOperationFailure :=
  ⟨⟨testMsg 5, by simp, 3, rfl⟩,
   send_messages_fail_fast failPostClient (SendTrytesOptions.default1 1) [testMsg 5]
     ⟨testMsg 5, by simp, 3, rfl⟩⟩

/-- C6: decoding a native message whose (present) payload is not of the
indexation kind fails with `UnexpectedPayloadType`; decoding any message
whose payload is an indexation payload built by `Indexation::new` (the wire
format, with no size bound enforced) succeeds. -/
theorem decode_payload_kind (l : TangleAddress) :
    (∀ msg : Message, msg.payload = some .other →
      msg_from_tangle_message msg l = .err .unexpectedPayloadType) ∧
    (∀ (msg : Message) (idx : List Char) (body : List Byte),
      msg.payload = some (.indexation (Indexation.new idx body)) →
      msg_from_tangle_message msg l =
        .ok { binary := { link := l, body := body }, timestamp := 0 }) := by
  constructor
  · intro msg hp
    simp [msg_from_tangle_message, hp]
  · intro msg idx body hp
    simp [msg_from_tangle_message, hp, Indexation.new, hexDecode_hexEncode]

/-- C6 witness: a concrete non-indexation message and a concrete indexation
message. -/
theorem decode_payload_kind_witness :
    (otherMsg.payload = some .other ∧
      msg_from_tangle_message otherMsg testLink = .err .unexpectedPayloadType) ∧
    ((testMsg 5).payload =
        some (.indexation (Indexation.new (indexKey testLink.appinst testLink.msgid) [5])) ∧
      msg_from_tangle_message (testMsg 5) testLink =
        .ok { binary := { link := testLink, body := [5] }, timestamp := 0 }) :=
  ⟨⟨rfl, (decode_payload_kind testLink).1 otherMsg rfl⟩,
   ⟨rfl, (decode_payload_kind testLink).2 (testMsg 5)
      (indexKey testLink.appinst testLink.msgid) [5] rfl⟩⟩

/-- C7 (code bug): while another operation holds the shared
`Rc<RefCell<Client>>` state, all three operations fail immediately with
`TransportNotAvailable`; when access is acquired, `send_message` and
`recv_messages` coincide with the owned-`Client` operations, but
`recv_message` does NOT behave identically: on a two-match link it returns
the last message where the owned variant fails with `MessageNotUnique`
(the discarded `try_or!` at client.rs:380). -/
theorem shared_handle_contention_and_divergence :
    SharedClient.send_message borrowedShared
        { binary := { link := testLink, body := [5] }, timestamp := 0 } =
      .err .transportNotAvailable ∧
    SharedClient.recv_messages borrowedShared testLink = .err .transportNotAvailable ∧
    SharedClient.recv_message borrowedShared testLink = .err .transportNotAvailable ∧
    SharedClient.send_message twoMsgShared
        { binary := { link := testLink, body := [5] }, timestamp := 0 } =
      Client.send_message twoMsgShared.cell
        { binary := { link := testLink, body := [5] }, timestamp := 0 } ∧
    SharedClient.recv_messages twoMsgShared testLink =
      Client.recv_messages twoMsgShared.cell testLink ∧
    SharedClient.recv_message twoMsgShared testLink ≠
      Client.recv_message twoMsgShared.cell testLink := by
  refine ⟨rfl, rfl, rfl, rfl, rfl, ?_⟩
  decide

/-- C8: the link codec is deterministic (a pure function of the link) and
injective across distinct `(instance, id)` pairs whose instance components
have the same byte length; `indexKey` is the expression used identically on
the send path (`make_bundle`) and the receive path (`get_messages`). -/
theorem link_codec_det_injective :
    (∀ a m : List Byte, indexKey a m = indexKey a m) ∧
    (∀ a1 m1 a2 m2 : List Byte, a1.length = a2.length →
      indexKey a1 m1 = indexKey a2 m2 → a1 = a2 ∧ m1 = m2) := by
  refine ⟨fun a m => rfl, fun a1 m1 a2 m2 hlen hkey => ?_⟩
  exact List.append_inj (hexEncode_injective hkey) hlen

/-- C8 witness: the injectivity direction applied at a concrete pair. -/
theorem link_codec_det_injective_witness :
    (([(1 : Byte)].length = [(1 : Byte)].length) ∧
      indexKey [(1 : Byte)] [(2 : Byte)] = indexKey [(1 : Byte)] [(2 : Byte)]) ∧
    ([(1 : Byte)] = [(1 : Byte)] ∧ [(2 : Byte)] = [(2 : Byte)]) :=
  ⟨⟨rfl, rfl⟩, link_codec_det_injective.2 [1] [2] [1] [2] rfl rfl⟩

/-- C9: both `Default` impls of `SendTrytesOptions` give depth 3,
min_weight_magnitude 14 and local_pow true; the thread count is the
available parallelism (`num_cpus::get()`), with the second impl falling
back to 1 when the `num_cpus` feature (the ability to determine it) is
absent. -/
theorem send_options_defaults (numCpus : Nat) :
    (SendTrytesOptions.default1 numCpus).depth = 3 ∧
    (SendTrytesOptions.default1 numCpus).min_weight_magnitude = 14 ∧
    (SendTrytesOptions.default1 numCpus).local_pow = true ∧
    (SendTrytesOptions.default1 numCpus).threads = numCpus ∧
    (SendTrytesOptions.default2 true numCpus).depth = 3 ∧
    (SendTrytesOptions.default2 true numCpus).min_weight_magnitude = 14 ∧
    (SendTrytesOptions.default2 true numCpus).local_pow = true ∧
    (SendTrytesOptions.default2 true numCpus).threads = numCpus ∧
    (SendTrytesOptions.default2 false numCpus).threads = 1 :=
  ⟨rfl, rfl, rfl, rfl, rfl, rfl, rfl, rfl, rfl⟩

/-- C10: every successfully decoded inbound message gets timestamp exactly
0, regardless of content (`// TODO get timestamp`, client.rs:84). -/
theorem decode_timestamp_zero (msg : Message) (l : TangleAddress) (tm : TangleMessage)
    (h : msg_from_tangle_message msg l = .ok tm) : tm.timestamp = 0 := by
  unfold msg_from_tangle_message at h
  split at h
  · cases h
  · split at h
    · cases h
      rfl
    · cases h
  · cases h

/-- C10 witness: a concrete decoded message. -/
theorem decode_timestamp_zero_witness :
    (msg_from_tangle_message (testMsg 5) testLink =
      .ok { binary := { link := testLink, body := [5] }, timestamp := 0 }) ∧
    ({ binary := { link := testLink, body := [5] }, timestamp := 0 } : TangleMessage).timestamp
      = 0 :=
  ⟨rfl, decode_timestamp_zero (testMsg 5) testLink
    { binary := { link := testLink, body := [5] }, timestamp := 0 } rfl⟩

end Streams
